import Mathlib

/-!
Verification of the ESP UART network-bridge protocol engine
(`src/lib/WUI/espif.cpp` of Prusa-Firmware-Buddy).

The C++ code is shallowly embedded: the static NIC state (the atomics
`esp_operating_mode`, `associated`, `esp_detected`, `esp_was_ok`,
`init_countdown`, `seen_intron`, `seen_rx_packet`, the `ScanData` fields,
the active intron of `tx_message` and the receive-parser state) becomes an
explicit record `EspState`; every operation becomes a pure function from
the old state (plus the outcomes of its external collaborators: the UART
transmit result, the random generator, the allocator) to the new state and
a list of externally visible events.  Machine integers are `Nat` with
explicit `% 2^w` where overflow matters.
-/

/-- Operating modes of the bridge, from the `ESPIFOperatingMode` enum in
`espif.cpp`. -/
inductive ESPIFOperatingMode
  | ESPIF_UNINITIALIZED_MODE
  | ESPIF_WAIT_INIT
  | ESPIF_NEED_AP
  | ESPIF_CONNECTING_AP
  | ESPIF_RUNNING_MODE
  | ESPIF_SCANNING_MODE
  | ESPIF_WRONG_FW
  | ESPIF_FLASHING_ERROR_NOT_CONNECTED
  | ESPIF_FLASHING_ERROR_OTHER
deriving DecidableEq, Repr

open ESPIFOperatingMode

/-- Error codes.  The code mixes LwIP `err_t` values (`ERR_OK`, `ERR_IF`,
`ERR_MEM`) with `HAL_StatusTypeDef` values returned by
`HAL_UART_Transmit_DMA` (`HAL_ERROR`, `HAL_BUSY`, `HAL_TIMEOUT`); both have
0 as their OK value, which `espif.cpp` exploits, so the model uses a single
inductive whose `ERR_OK` stands for both zero values. -/
inductive err_t
  | ERR_OK
  | ERR_MEM
  | ERR_IF
  | HAL_ERROR
  | HAL_BUSY
  | HAL_TIMEOUT
deriving DecidableEq, Repr

open err_t

/-- Message types of the STM↔ESP protocol that `espif.cpp` mentions
(`esp::MessageType`).  `messages.hpp` is not part of the sources, so the
constructor list is taken from the uses in `espif.cpp`. -/
inductive MessageType
  | DEVICE_INFO_V2
  | CLIENTCONFIG_V2
  | PACKET_V2
  | SCAN_START
  | SCAN_STOP
  | SCAN_AP_GET
  | SCAN_AP_CNT
  | SCAN_AP_INFO
  | INVALID
deriving DecidableEq, Repr

/-- Modelled from the spec: the numeric wire values of `esp::MessageType`
(`esp_protocol/messages.hpp` is not among the sources).  The concrete
assignment is a model choice; no claim depends on the numbers, only on
distinct types having distinct bytes. -/
def decode_message_type (b : Nat) : MessageType :=
  match b with
  | 0 => MessageType.DEVICE_INFO_V2
  | 1 => MessageType.CLIENTCONFIG_V2
  | 2 => MessageType.PACKET_V2
  | 3 => MessageType.SCAN_START
  | 4 => MessageType.SCAN_STOP
  | 5 => MessageType.SCAN_AP_GET
  | 6 => MessageType.SCAN_AP_CNT
  | 7 => MessageType.SCAN_AP_INFO
  | _ => MessageType.INVALID

/-- Modelled from the spec: `esp::REQUIRED_PROTOCOL_VERSION` lives in
`esp_protocol/messages.hpp`, which is not among the sources.  The value is
a model choice; the claims only compare the received version byte against
this constant. -/
def REQUIRED_PROTOCOL_VERSION : Nat := 10

/-- Modelled from the spec: `esp::DEFAULT_INTRON` lives in
`esp_protocol/messages.hpp`, which is not among the sources.  Per the spec
the intron is 6 bytes, the first two a fixed protocol marker; the tail
matches what `reset_intron` in `espif.cpp` writes (bytes 2..5 become
0,1,2,3). -/
def DEFAULT_INTRON : List Nat := [85, 170, 0, 1, 2, 3]

/-- Receive-parser cursor, modelled from the spec (the byte-level state
machine lives in `esp_protocol/parser.hpp`, which is not among the
sources): searching-for-intron / reading-header / reading-payload /
reading-checksum, with the bytes accumulated so far. -/
inductive RxPhase
  | intron_search (matched : Nat)
  | read_header (got : List Nat)
  | read_payload (type_byte variable_byte size : Nat) (got : List Nat)
  | read_checksum (type_byte variable_byte size : Nat) (payload : List Nat) (got : List Nat)
deriving DecidableEq, Repr

/-- The static NIC state of `espif.cpp` gathered into one record.
`ap_info_queue` models the single-slot `freertos::Queue<esp::data::APInfo, 1>`
(an `APInfo` is kept as its raw payload bytes).  `tx_intron` is
`tx_message.intron`, the active sync pattern; `netif_hwaddr` is the MAC
stored into the netif by `process_esp_device_info`. -/
structure EspState where
  esp_operating_mode : ESPIFOperatingMode
  associated : Bool
  esp_detected : Bool
  esp_was_ok : Bool
  init_countdown : Nat
  seen_intron : Bool
  seen_rx_packet : Bool
  scan_is_running : Bool
  scan_prescan_op_mode : ESPIFOperatingMode
  scan_ap_count : Nat
  scan_ap_index : Nat
  tx_intron : List Nat
  netif_hwaddr : List Nat
  rx_phase : RxPhase
  ap_info_queue : Option (List Nat)
deriving DecidableEq, Repr

/-- Externally visible events: notifications to the IP stack
(`netifapi_netif_set_link_up` / `netifapi_netif_set_link_down`) and a
reassembled packet handed to `netif->input`. -/
inductive EspEvent
  | set_link_up
  | set_link_down
  | input_packet (payload : List Nat)
deriving DecidableEq, Repr

/-- A message given to `espif_tx_raw` for transmission: type, variable
byte and payload bytes. -/
structure SentMsg where
  msg_type : MessageType
  variable_byte : Nat
  payload : List Nat
deriving DecidableEq, Repr

/-- `is_running` from `espif.cpp`: the modes in which the bridge accepts
outgoing packets. -/
def is_running (mode : ESPIFOperatingMode) : Bool :=
  match mode with
  | ESPIF_UNINITIALIZED_MODE => false
  | ESPIF_FLASHING_ERROR_NOT_CONNECTED => false
  | ESPIF_FLASHING_ERROR_OTHER => false
  | ESPIF_WRONG_FW => false
  | ESPIF_SCANNING_MODE => false
  | ESPIF_WAIT_INIT => true
  | ESPIF_NEED_AP => true
  | ESPIF_RUNNING_MODE => true
  | ESPIF_CONNECTING_AP => true

/-- `can_recieve_data` from `espif.cpp` (sic): the modes in which received
UART data is processed and in which `espif_reset` is willing to act. -/
def can_recieve_data (mode : ESPIFOperatingMode) : Bool :=
  match mode with
  | ESPIF_UNINITIALIZED_MODE => false
  | ESPIF_FLASHING_ERROR_OTHER => false
  | ESPIF_WRONG_FW => false
  | ESPIF_FLASHING_ERROR_NOT_CONNECTED => true
  | ESPIF_WAIT_INIT => true
  | ESPIF_NEED_AP => true
  | ESPIF_RUNNING_MODE => true
  | ESPIF_CONNECTING_AP => true
  | ESPIF_SCANNING_MODE => true

/-- Firmware-health states reported by `esp_fw_state` (`EspFwState` in
`espif.h`). -/
inductive EspFwState
  | Unknown
  | NoEsp
  | NoFirmware
  | FlashingErrorNotConnected
  | FlashingErrorOther
  | Ok
  | WrongVersion
  | Scanning
deriving DecidableEq, Repr

/-- `esp_fw_state` from `espif.cpp`: derives the firmware-health state
from the operating mode, the `esp_detected` flag, the `esp_was_ok` latch
and the startup countdown. -/
def esp_fw_state (st : EspState) : EspFwState :=
  match st.esp_operating_mode with
  | ESPIF_UNINITIALIZED_MODE =>
      if st.esp_was_ok then EspFwState.Ok else EspFwState.Unknown
  | ESPIF_FLASHING_ERROR_NOT_CONNECTED => EspFwState.FlashingErrorNotConnected
  | ESPIF_FLASHING_ERROR_OTHER => EspFwState.FlashingErrorOther
  | ESPIF_WAIT_INIT =>
      if st.esp_was_ok then EspFwState.Ok
      else if st.esp_detected then
        if st.init_countdown > 0 then EspFwState.Unknown else EspFwState.NoFirmware
      else EspFwState.NoEsp
  | ESPIF_NEED_AP => EspFwState.Ok
  | ESPIF_CONNECTING_AP => EspFwState.Ok
  | ESPIF_RUNNING_MODE => EspFwState.Ok
  | ESPIF_WRONG_FW => EspFwState.WrongVersion
  | ESPIF_SCANNING_MODE => EspFwState.Scanning

/-- A convenient fully concrete state used to instantiate theorems. -/
def base_state : EspState :=
  { esp_operating_mode := ESPIF_WAIT_INIT
    associated := false
    esp_detected := false
    esp_was_ok := false
    init_countdown := 20
    seen_intron := false
    seen_rx_packet := false
    scan_is_running := false
    scan_prescan_op_mode := ESPIF_UNINITIALIZED_MODE
    scan_ap_count := 0
    scan_ap_index := 0
    tx_intron := DEFAULT_INTRON
    netif_hwaddr := []
    rx_phase := RxPhase.intron_search 0
    ap_info_queue := none }

/-! ## CRC32 and the receive parser -/

/-- One bit step of the reflected CRC32 (polynomial 0xEDB88320). -/
def crc32_update_bit (crc : Nat) : Nat :=
  if crc % 2 = 1 then (crc / 2) ^^^ 0xEDB88320 else crc / 2

/-- Iterated bit steps. -/
def crc32_update_bits : Nat → Nat → Nat
  | 0, crc => crc
  | n + 1, crc => crc32_update_bits n (crc32_update_bit crc)

/-- One byte step of CRC32. -/
def crc32_update_byte (crc b : Nat) : Nat :=
  crc32_update_bits 8 (crc ^^^ (b % 256))

/-- Modelled from the spec: `crc32_calc_ex` (`src/common/crc32.h` is not
among the sources).  The spec says the trailer is "the running CRC32 over
intron ∥ header ∥ payload"; this is the standard IEEE CRC32 in its
zlib-style running form, so that feeding a concatenation equals chaining
calls, as `message_checksum` in `espif.cpp` does. -/
def crc32_calc_ex (crc : Nat) (data : List Nat) : Nat :=
  0xFFFFFFFF ^^^ data.foldl crc32_update_byte (crc ^^^ 0xFFFFFFFF)

/-- The four header bytes as they appear on the wire after the intron:
type, variable byte and the big-endian 16-bit payload length
(`tx_message.header.size = htons(size)`). -/
def header_wire_bytes (t vb size : Nat) : List Nat :=
  [t % 256, vb % 256, size / 256 % 256, size % 256]

/-- `process_link_change` from `espif.cpp`: on link-up, switch to
`RUNNING` unless a scan is in progress, and notify the IP stack only when
the `associated` flag actually flips (the `exchange` calls). -/
def process_link_change (link_up : Bool) (st : EspState) : EspState × List EspEvent :=
  if link_up then
    let st1 := if st.scan_is_running then st
               else { st with esp_operating_mode := ESPIF_RUNNING_MODE }
    if st1.associated then (st1, [])
    else ({ st1 with associated := true }, [EspEvent.set_link_up])
  else
    if st.associated then ({ st with associated := false }, [EspEvent.set_link_down])
    else (st, [])

/-- `UartRxParser::validate_checksum` from `espif.cpp`: latches
`seen_intron` when the checksum is valid (the invalid case only logs). -/
def validate_checksum (checksum_valid : Bool) (st : EspState) : EspState :=
  if checksum_valid then { st with seen_intron := true } else st

/-- `UartRxParser::process_scan_ap_count` from `espif.cpp`: store the AP
count (the `ap_count` header byte) only when the checksum is valid. -/
def process_scan_ap_count (checksum_valid : Bool) (ap_count : Nat) (st : EspState) : EspState :=
  if checksum_valid then
    { validate_checksum true st with scan_ap_count := ap_count % 256 }
  else st

/-- The single-slot `freertos::Queue<esp::data::APInfo, 1>`: a send into a
full slot is dropped, never queued unboundedly (spec §5). -/
def queue_send (q : Option (List Nat)) (x : List Nat) : Option (List Nat) :=
  match q with
  | none => some x
  | some y => some y

/-- `UartRxParser::process_scan_ap_info` from `espif.cpp`: when the
checksum is valid and the embedded AP index matches the outstanding
request index, push the payload (the raw `APInfo` bytes) into the
single-slot response queue. -/
def process_scan_ap_info (checksum_valid : Bool) (ap_index : Nat) (payload : List Nat)
    (st : EspState) : EspState :=
  if checksum_valid then
    let st1 := validate_checksum true st
    if ap_index % 256 = st1.scan_ap_index then
      { st1 with ap_info_queue := queue_send st1.ap_info_queue payload }
    else st1
  else st

/-- `UartRxParser::process_esp_device_info` from `espif.cpp`: the checksum
is only validated for logging; the MAC is stored into the netif and the
`WAIT_INIT → NEED_AP` / `WRONG_FW` transition is made regardless of its
outcome.  The `compare_exchange_strong` guard makes a duplicate
device-info message (mode no longer `WAIT_INIT`) a no-op beyond the MAC
store. -/
def process_esp_device_info (checksum_valid : Bool) (version : Nat) (payload : List Nat)
    (st : EspState) : EspState :=
  let st1 := validate_checksum checksum_valid st
  let st2 := { st1 with netif_hwaddr := payload.take 6 }
  if st2.esp_operating_mode = ESPIF_WAIT_INIT then
    if version % 256 ≠ REQUIRED_PROTOCOL_VERSION then
      { st2 with esp_operating_mode := ESPIF_WRONG_FW }
    else
      { st2 with esp_operating_mode := ESPIF_NEED_AP, esp_was_ok := true }
  else st2

/-- `UartRxParser::process_packet` from `espif.cpp`: on a valid checksum,
derive the link state from the header `up` byte, hand the reassembled
payload to `netif->input` and latch `seen_rx_packet` (the model takes the
input callback as succeeding; on failure the code merely frees the buffer
itself, which has no counterpart in the model).  On an invalid checksum
nothing is dispatched. -/
def process_packet (checksum_valid : Bool) (up : Nat) (payload : List Nat)
    (st : EspState) : EspState × List EspEvent :=
  if checksum_valid then
    let st1 := validate_checksum true st
    let r := process_link_change (up % 256 != 0) st1
    ({ r.1 with seen_rx_packet := true }, r.2 ++ [EspEvent.input_packet payload])
  else (st, [])

/-- Dispatch of one complete message: compute the CRC32 over
intron ∥ header ∥ payload, compare it with the received trailer, and run
the `UartRxParser` handler for the message type
(`process_invalid_message` only logs in release builds, so the state is
unchanged for unrecognized types). -/
def process_message (st : EspState) (t vb size : Nat) (payload : List Nat) (trailer : Nat) :
    EspState × List EspEvent :=
  let checksum_valid :=
    crc32_calc_ex 0 (st.tx_intron ++ header_wire_bytes t vb size ++ payload) == trailer
  match decode_message_type t with
  | MessageType.DEVICE_INFO_V2 => (process_esp_device_info checksum_valid vb payload st, [])
  | MessageType.SCAN_AP_CNT => (process_scan_ap_count checksum_valid vb st, [])
  | MessageType.SCAN_AP_INFO => (process_scan_ap_info checksum_valid vb payload st, [])
  | MessageType.PACKET_V2 => process_packet checksum_valid vb payload st
  | _ => (st, [])

/-- Modelled from the spec: one byte of `esp::RxParserBase::process_data`
(`esp_protocol/parser.hpp` is not among the sources).  Byte-wise scan for
the 6-byte intron anchor, then header, payload and trailing checksum
accumulation; a completed trailer dispatches the message through the
`UartRxParser` handlers above and resumes the intron search.  Packet
buffer allocation is taken as succeeding (the payload is a Lean list). -/
def feed_byte (st : EspState) (b : Nat) : EspState × List EspEvent :=
  match st.rx_phase with
  | RxPhase.intron_search m =>
      if b = st.tx_intron.getD m 0 then
        if m + 1 = 6 then ({ st with rx_phase := RxPhase.read_header [] }, [])
        else ({ st with rx_phase := RxPhase.intron_search (m + 1) }, [])
      else if b = st.tx_intron.getD 0 0 then
        ({ st with rx_phase := RxPhase.intron_search 1 }, [])
      else ({ st with rx_phase := RxPhase.intron_search 0 }, [])
  | RxPhase.read_header got =>
      let got1 := got ++ [b]
      if got1.length < 4 then ({ st with rx_phase := RxPhase.read_header got1 }, [])
      else
        let t := got1.getD 0 0
        let vb := got1.getD 1 0
        let size := got1.getD 2 0 * 256 + got1.getD 3 0
        if size = 0 then ({ st with rx_phase := RxPhase.read_checksum t vb 0 [] [] }, [])
        else ({ st with rx_phase := RxPhase.read_payload t vb size [] }, [])
  | RxPhase.read_payload t vb size got =>
      let got1 := got ++ [b]
      if got1.length < size then
        ({ st with rx_phase := RxPhase.read_payload t vb size got1 }, [])
      else ({ st with rx_phase := RxPhase.read_checksum t vb size got1 [] }, [])
  | RxPhase.read_checksum t vb size payload got =>
      let got1 := got ++ [b]
      if got1.length < 4 then
        ({ st with rx_phase := RxPhase.read_checksum t vb size payload got1 }, [])
      else
        let trailer :=
          ((got1.getD 0 0 * 256 + got1.getD 1 0) * 256 + got1.getD 2 0) * 256 + got1.getD 3 0
        let r := process_message st t vb size payload trailer
        ({ r.1 with rx_phase := RxPhase.intron_search 0 }, r.2)

/-- `RxParserBase::process_data` over a chunk: fold `feed_byte`,
accumulating dispatched events. -/
def process_data (st : EspState) (data : List Nat) : EspState × List EspEvent :=
  data.foldl (fun acc b =>
    let r := feed_byte acc.1 b
    (r.1, acc.2 ++ r.2)) (st, [])

/-! ## Scan session, reset and client config -/

/-- `espif::scan::start` from `espif.cpp`.  There is no state validation
(the code carries a `TODO: Validate that we can start a scan`): the
scan-running flag is set unconditionally, `SCAN_START` is transmitted, and
on success the prior operating mode is captured by the `exchange` into
`prescan_op_mode` while the mode becomes `SCANNING` and `ap_count` is
reset; on transmit failure the flag is rolled back to false.  The UART
transmit outcome is the `tx_result` parameter; the transmitted message is
returned as the third component. -/
def espif_scan_start (tx_result : err_t) (st : EspState) : err_t × EspState × List SentMsg :=
  let st1 := { st with scan_is_running := true }
  let sent := [SentMsg.mk MessageType.SCAN_START 0 []]
  if tx_result = ERR_OK then
    (ERR_OK,
      { st1 with scan_prescan_op_mode := st.esp_operating_mode
                 esp_operating_mode := ESPIF_SCANNING_MODE
                 scan_ap_count := 0 },
      sent)
  else (tx_result, { st1 with scan_is_running := false }, sent)

/-- `espif::scan::stop` from `espif.cpp`: refuses with `ERR_IF` when no
scan is running; otherwise transmits `SCAN_STOP` and, only on transmit
success, clears the scan-running flag and restores the saved pre-scan mode
via a compare-exchange that fires only if the mode is still `SCANNING`
(the spurious-failure allowance of `compare_exchange_weak` is modelled as
the deterministic comparison). -/
def espif_scan_stop (tx_result : err_t) (st : EspState) : err_t × EspState × List SentMsg :=
  if st.scan_is_running = false then (ERR_IF, st, [])
  else
    let sent := [SentMsg.mk MessageType.SCAN_STOP 0 []]
    if tx_result = ERR_OK then
      let st1 := { st with scan_is_running := false }
      let st2 :=
        if st1.esp_operating_mode = ESPIF_SCANNING_MODE then
          { st1 with esp_operating_mode := st.scan_prescan_op_mode }
        else st1
      (ERR_OK, st2, sent)
    else (tx_result, st, sent)

/-- `reset_intron` from `espif.cpp`: bytes 2..5 of the 6-byte intron are
set to 0,1,2,3 (`intron.at(i) = i - 2`), the first two bytes are kept. -/
def reset_intron_list (intron : List Nat) : List Nat :=
  intron.take 2 ++ [0, 1, 2, 3]

/-- `force_down` from `espif.cpp`: deliver a link-down to
`process_link_change` on the active netif. -/
def force_down (st : EspState) : EspState × List EspEvent :=
  process_link_change false st

/-- `hard_reset_device` from `espif.cpp`: toggle the reset line and clear
`esp_detected` (the GPIO and delay have no state counterpart). -/
def hard_reset_device (st : EspState) : EspState :=
  { st with esp_detected := false }

/-- `espif_reset` from `espif.cpp`: refuses (returning with no effect)
unless `can_recieve_data` holds for the current mode; otherwise resets the
intron, forces the link down, hard-resets the device, forces the mode to
`WAIT_INIT` and resets the receive parser (`uart_rx_parser.reset()` is in
`esp_protocol/parser.hpp`, not among the sources; modelled from the spec
as clearing the parser cursor back to the intron search).  Note that the
`seen_intron` and `seen_rx_packet` atomics are not touched. -/
def espif_reset (st : EspState) : EspState × List EspEvent :=
  if can_recieve_data st.esp_operating_mode = false then (st, [])
  else
    let st1 := { st with tx_intron := reset_intron_list st.tx_intron }
    let r := force_down st1
    let st3 := hard_reset_device r.1
    ({ st3 with esp_operating_mode := ESPIF_WAIT_INIT
                rx_phase := RxPhase.intron_search 0 },
      r.2)

/-- `espif_tx_msg_clientconfig_v2` from `espif.cpp`: refuses with `ERR_IF`
while a scan session is running; builds a new intron from the first two
bytes of the current one plus four freshly random bytes (`rand_u()`
truncated to a byte — the random draws are the `random_tail` parameter),
fails with `ERR_MEM` when the pbuf allocation fails (`alloc_ok`), and
transmits intron ∥ ssid-length ∥ ssid ∥ pass-length ∥ pass as the
`CLIENTCONFIG_V2` payload (`strlen` truncated to a byte, as many bytes
copied).  Only when the transmit reports `ERR_OK` is the new intron
committed as the active sync pattern; on every failure path the intron is
unchanged. -/
def espif_tx_msg_clientconfig_v2 (ssid pass random_tail : List Nat) (alloc_ok : Bool)
    (tx_result : err_t) (st : EspState) : err_t × EspState × List SentMsg :=
  if st.scan_is_running then (ERR_IF, st, [])
  else
    let new_intron := st.tx_intron.take 2 ++ (random_tail.take 4).map (fun b => b % 256)
    if alloc_ok = false then (ERR_MEM, st, [])
    else
      let ssid_len := ssid.length % 256
      let pass_len := pass.length % 256
      let payload :=
        new_intron ++ [ssid_len] ++ ssid.take ssid_len ++ [pass_len] ++ pass.take pass_len
      let sent := [SentMsg.mk MessageType.CLIENTCONFIG_V2 0 payload]
      if tx_result = ERR_OK then
        (ERR_OK, { st with tx_intron := new_intron }, sent)
      else (tx_result, st, sent)

/-- One attempt of the `get_ap_info` retry loop as seen from the caller:
the transmit result of the `SCAN_AP_GET` send and what
`ap_info_queue.try_receive` yields within the 10 ms timeout (`none` =
timeout, `some` = a matching `APInfo`; the index matching happens on the
parser side in `process_scan_ap_info` before anything is enqueued). -/
structure ApAttempt where
  send_result : err_t
  reply : Option (List Nat)
deriving DecidableEq, Repr

/-- The `get_ap_info` retry loop body.  In the C++,
`int tries = 4; while (tries >= 0) { --tries; … }` runs the body for
`tries` = 4,3,2,1,0, i.e. five times; `remaining` counts those body
executions and `attempt` numbers the sends already made, so the third
component of the result is the total number of `SCAN_AP_GET` sends.  A
failed send stores the error and retries; a successful send waits on the
queue, returning the info on success and storing `ERR_IF` on timeout. -/
def get_ap_info_loop (oracle : Nat → ApAttempt) :
    Nat → Nat → err_t → err_t × Option (List Nat) × Nat
  | attempt, 0, last_error => (last_error, none, attempt)
  | attempt, remaining + 1, _last_error =>
      let a := oracle attempt
      if a.send_result ≠ ERR_OK then
        get_ap_info_loop oracle (attempt + 1) remaining a.send_result
      else
        match a.reply with
        | some info => (ERR_OK, some info, attempt + 1)
        | none => get_ap_info_loop oracle (attempt + 1) remaining ERR_IF

/-- `espif::scan::get_ap_info` from `espif.cpp` (the loop, after
`::scan.ap_index = index` is stored and under `get_ap_info_mutex`):
`tries` starts at 4 and the loop runs while `tries >= 0`, so up to five
attempts are made. -/
def espif_scan_get_ap_info (oracle : Nat → ApAttempt) : err_t × Option (List Nat) × Nat :=
  get_ap_info_loop oracle 0 5 ERR_OK

/-- The error recorded by one unsuccessful attempt: a failed send records
the transport error, a timed-out wait records `ERR_IF`. -/
def attempt_error (a : ApAttempt) : err_t :=
  if a.send_result ≠ ERR_OK then a.send_result else ERR_IF

/-! ## TxChannel completion-signal slot -/

/-- The DMA completion-signal slot of `espif.cpp`:
`tx_semaphore_active` models whether the atomic pointer holds
`&tx_semaphore`, `claims` counts the exchanges that installed it and
`releases` the exchanges that withdrew it (by the ISR or by the failing
caller). -/
structure TxCompletionState where
  tx_semaphore_active : Bool
  claims : Nat
  releases : Nat
deriving DecidableEq, Repr

/-- The claim in `espif_tx_buffer`:
`tx_semaphore_active.exchange(&tx_semaphore)` with
`assert(old_semaphore == nullptr)` — `none` models the assertion firing
because a prior claim is still outstanding. -/
def tx_claim (s : TxCompletionState) : Option TxCompletionState :=
  if s.tx_semaphore_active then none
  else some { s with tx_semaphore_active := true, claims := s.claims + 1 }

/-- `espif_tx_callback` from `espif.cpp` (ISR context):
`tx_semaphore_active.exchange(nullptr)`; only the winner of the exchange —
the one that sees a non-null pointer — releases the semaphore.  The second
component reports whether a release happened. -/
def espif_tx_callback (s : TxCompletionState) : TxCompletionState × Bool :=
  if s.tx_semaphore_active then
    ({ s with tx_semaphore_active := false, releases := s.releases + 1 }, true)
  else (s, false)

/-- The failure-path withdrawal in `espif_tx_buffer`:
`tx_semaphore_active.exchange(nullptr)` with
`assert(withdrawn == &tx_semaphore)` — `none` models the assertion firing
because the claim had already been released. -/
def tx_withdraw (s : TxCompletionState) : Option TxCompletionState :=
  if s.tx_semaphore_active then
    some { s with tx_semaphore_active := false, releases := s.releases + 1 }
  else none

/-- One `espif_tx_buffer` call (made under `uart_write_mutex`): claim the
slot, issue the DMA transmit (outcome `hal_ok`); on success block on
`tx_semaphore.acquire()`, which returns only after the ISR ran
`espif_tx_callback` — so by the time the call returns the ISR release has
happened; on immediate transmit failure withdraw the claim on the spot.
The DMA completion interrupt fires exactly once per successfully issued
transfer and never otherwise. -/
def espif_tx_buffer (hal_ok : Bool) (s : TxCompletionState) : Option TxCompletionState :=
  (tx_claim s).bind fun s1 =>
    if hal_ok then some (espif_tx_callback s1).1
    else tx_withdraw s1

/-- A sequence of `espif_tx_buffer` calls, each with its own HAL transmit
outcome, serialized by `uart_write_mutex`. -/
def run_tx_calls (hal_results : List Bool) (s : TxCompletionState) : Option TxCompletionState :=
  hal_results.foldlM (fun st h => espif_tx_buffer h st) s

/-- The base state in `ESPIF_UNINITIALIZED_MODE`. -/
def c4_uninit_state : EspState :=
  { base_state with esp_operating_mode := ESPIF_UNINITIALIZED_MODE }

/-- The base state with both transient flags set. -/
def c4_seen_state : EspState :=
  { base_state with seen_intron := true, seen_rx_packet := true }

/-- A state in the middle of a scan: running, mode `SCANNING`, pre-scan
mode `NEED_AP` saved. -/
def c7_midscan_state : EspState :=
  { base_state with scan_is_running := true, esp_operating_mode := ESPIF_SCANNING_MODE, scan_prescan_op_mode := ESPIF_NEED_AP }

/-- A state in the middle of a scan (running, mode `SCANNING`, pre-scan
mode `NEED_AP` saved), at which a second `start` is issued. -/
def c10_midscan_state : EspState :=
  { base_state with scan_is_running := true, esp_operating_mode := ESPIF_SCANNING_MODE, scan_prescan_op_mode := ESPIF_NEED_AP }

/-! ## C1: checksum mismatches -/

/-- A complete DEVICE_INFO_V2 message with a matching protocol version, a
6-byte MAC payload and a deliberately wrong checksum trailer (0, while the
CRC32 over intron ∥ header ∥ payload is 2440275244). -/
def c1_bad_checksum_bytes : List Nat :=
  DEFAULT_INTRON ++ [0, 10, 0, 6] ++ [1, 2, 3, 4, 5, 6] ++ [0, 0, 0, 0]

set_option maxRecDepth 8000 in
/-- C1 counterexample: a received DEVICE_INFO_V2 message whose trailing
checksum does not match the CRC32 over intron ∥ header ∥ payload is still
dispatched — the operating mode changes from `WAIT_INIT` to `NEED_AP`, the
netif MAC address is overwritten with the payload and the `esp_was_ok`
latch is set, refuting the claim that nothing changes on a checksum
mismatch. -/
theorem device_info_bad_checksum_still_dispatched :
    crc32_calc_ex 0 (DEFAULT_INTRON ++ header_wire_bytes 0 10 6 ++ [1, 2, 3, 4, 5, 6]) ≠ 0
    ∧ base_state.esp_operating_mode = ESPIF_WAIT_INIT
    ∧ (process_data base_state c1_bad_checksum_bytes).1.esp_operating_mode = ESPIF_NEED_AP
    ∧ base_state.netif_hwaddr = []
    ∧ (process_data base_state c1_bad_checksum_bytes).1.netif_hwaddr = [1, 2, 3, 4, 5, 6]
    ∧ (process_data base_state c1_bad_checksum_bytes).1.esp_was_ok = true := by
  decide

/-- C1 amended: for every received message that is not DEVICE_INFO_V2
(i.e. SCAN_AP_CNT, SCAN_AP_INFO, PACKET_V2 and unrecognized types), a
trailing checksum that does not match the CRC32 over
intron ∥ header ∥ payload dispatches nothing — the whole state (operating
mode, MAC, scan-session fields, queue, flags) is unchanged and no buffer
is handed to the IP-stack input callback — and the parser resumes by
searching for the next intron.  A DEVICE_INFO_V2 message, by contrast, is
processed even on a checksum mismatch (see the counterexample). -/
theorem checksum_mismatch_not_dispatched (st : EspState) (t vb size trailer : Nat)
    (payload : List Nat)
    (hcrc : crc32_calc_ex 0 (st.tx_intron ++ header_wire_bytes t vb size ++ payload) ≠ trailer)
    (ht : decode_message_type t ≠ MessageType.DEVICE_INFO_V2) :
    process_message st t vb size payload trailer = (st, [])
    ∧ ∀ (c0 c1 c2 b : Nat),
        (feed_byte { st with rx_phase := RxPhase.read_checksum t vb size payload [c0, c1, c2] } b).1.rx_phase
          = RxPhase.intron_search 0 := by
  rw [List.append_assoc] at hcrc
  have hb : (crc32_calc_ex 0 (st.tx_intron ++ (header_wire_bytes t vb size ++ payload))
      == trailer) = false := by
    simpa using hcrc
  constructor
  · unfold process_message
    cases hd : decode_message_type t <;>
      simp [hd, hb, hcrc, process_scan_ap_count, process_scan_ap_info, process_packet,
        process_esp_device_info] at ht ⊢
  · intro c0 c1 c2 b
    simp [feed_byte]

set_option maxRecDepth 8000 in
/-- C1 witness: the amended theorem applied to a concrete SCAN_AP_CNT
message with a zero-length payload and a wrong trailer: the state is
returned unchanged and nothing is dispatched. -/
theorem checksum_mismatch_not_dispatched_witness :
    process_message base_state 6 3 0 [] 0 = (base_state, []) :=
  (checksum_mismatch_not_dispatched base_state 6 3 0 0 [] (by decide) (by decide)).1

/-! ## C9: edge-triggered link notifications -/

/-- C9: `process_link_change` notifies the IP stack only on edges of the
`associated` flag — `set_link_up` exactly when the flag flips false→true,
`set_link_down` exactly when it flips true→false — so delivering the same
link state twice in a row produces no second notification. -/
theorem process_link_change_edge_triggered (st : EspState) (link_up : Bool) :
    (EspEvent.set_link_up ∈ (process_link_change link_up st).2
      ↔ link_up = true ∧ st.associated = false)
    ∧ (EspEvent.set_link_down ∈ (process_link_change link_up st).2
      ↔ link_up = false ∧ st.associated = true)
    ∧ (process_link_change link_up (process_link_change link_up st).1).2 = [] := by
  cases link_up <;> cases ha : st.associated <;> cases hs : st.scan_is_running <;>
    simp [process_link_change, ha, hs]

/-- C8: once the ever-initialized latch `esp_was_ok` is true,
`esp_fw_state` returns neither `NoFirmware` nor `NoEsp`, for every
operating mode, detection flag and countdown value. -/
theorem esp_fw_state_hysteresis (st : EspState) (h : st.esp_was_ok = true) :
    esp_fw_state st ≠ EspFwState.NoFirmware ∧ esp_fw_state st ≠ EspFwState.NoEsp := by
  cases hm : st.esp_operating_mode <;> simp [esp_fw_state, hm, h]

/-- C8 witness: the hysteresis theorem applied at a concrete state (mode
`WAIT_INIT`, not detected, countdown exhausted — without the latch this
state would report `NoEsp`). -/
theorem esp_fw_state_hysteresis_witness :
    esp_fw_state { base_state with esp_was_ok := true, init_countdown := 0 } ≠ EspFwState.NoFirmware ∧
      esp_fw_state { base_state with esp_was_ok := true, init_countdown := 0 } ≠ EspFwState.NoEsp :=
  esp_fw_state_hysteresis { base_state with esp_was_ok := true, init_countdown := 0 } (by rfl)

/-! ## C2: get_ap_info retry bound -/

/-- The number of sends the loop makes never exceeds the remaining
iteration budget. -/
theorem get_ap_info_loop_sends_le (oracle : Nat → ApAttempt) :
    ∀ (r a : Nat) (le : err_t), (get_ap_info_loop oracle a r le).2.2 ≤ a + r := by
  intro r
  induction r with
  | zero => intro a le; simp [get_ap_info_loop]
  | succ r ih =>
      intro a le
      unfold get_ap_info_loop
      by_cases hs : (oracle a).send_result ≠ ERR_OK
      · rw [if_pos hs]
        exact le_trans (ih (a + 1) (oracle a).send_result) (by omega)
      · rw [if_neg hs]
        cases hr : (oracle a).reply with
        | some info => exact (show a + 1 ≤ a + (r + 1) by omega)
        | none => exact le_trans (ih (a + 1) ERR_IF) (by omega)

/-- When the loop exhausts its budget without a matching reply, it has
sent once per iteration and returns the error of the last attempt. -/
theorem get_ap_info_loop_exhausted (oracle : Nat → ApAttempt) :
    ∀ (r a : Nat) (le : err_t),
      (get_ap_info_loop oracle a (r + 1) le).2.1 = none →
      (get_ap_info_loop oracle a (r + 1) le).2.2 = a + r + 1
      ∧ (get_ap_info_loop oracle a (r + 1) le).1 = attempt_error (oracle (a + r)) := by
  intro r
  induction r with
  | zero =>
      intro a le
      unfold get_ap_info_loop
      by_cases hs : (oracle a).send_result ≠ ERR_OK
      · rw [if_pos hs]
        intro _
        unfold get_ap_info_loop
        exact ⟨by simp, by simp [attempt_error, hs]⟩
      · rw [if_neg hs]
        cases hr : (oracle a).reply with
        | some info =>
            intro hnone
            simp at hnone
        | none =>
            intro _
            unfold get_ap_info_loop
            have hs2 : (oracle a).send_result = ERR_OK := not_not.mp hs
            exact ⟨by simp, by simp [attempt_error, hs2]⟩
  | succ r ih =>
      intro a le
      unfold get_ap_info_loop
      by_cases hs : (oracle a).send_result ≠ ERR_OK
      · rw [if_pos hs]
        intro hnone
        have h := ih (a + 1) (oracle a).send_result hnone
        have ha : a + 1 + r = a + (r + 1) := by omega
        rw [h.1, h.2, ha]
        exact ⟨rfl, rfl⟩
      · rw [if_neg hs]
        cases hr : (oracle a).reply with
        | some info =>
            intro hnone
            simp at hnone
        | none =>
            intro hnone
            have h := ih (a + 1) ERR_IF hnone
            have ha : a + 1 + r = a + (r + 1) := by omega
            rw [h.1, h.2, ha]
            exact ⟨rfl, rfl⟩

/-- C2 counterexample: with every send succeeding and every wait timing
out, a single `get_ap_info` call sends the `SCAN_AP_GET` request five
times, not at most four — `int tries = 4; while (tries >= 0) { --tries; … }`
runs the body for tries = 4,3,2,1,0 — and returns the timeout error
`ERR_IF`. -/
theorem get_ap_info_sends_five_times :
    espif_scan_get_ap_info (fun _ => ApAttempt.mk ERR_OK none) = (ERR_IF, none, 5)
    ∧ ¬ (espif_scan_get_ap_info (fun _ => ApAttempt.mk ERR_OK none)).2.2 ≤ 4 := by
  decide

/-- C2 amended: a single `get_ap_info` call sends the `SCAN_AP_GET`
request at most 5 times (not 4), waits after each send up to the fixed
short timeout for a matching reply, and, if no matching reply arrives on
any attempt, makes exactly 5 attempts and returns the most recently
observed transport or timeout error — the error of the fifth and last
attempt. -/
theorem get_ap_info_retry_bound (oracle : Nat → ApAttempt) :
    (espif_scan_get_ap_info oracle).2.2 ≤ 5
    ∧ ((espif_scan_get_ap_info oracle).2.1 = none →
        (espif_scan_get_ap_info oracle).2.2 = 5
        ∧ (espif_scan_get_ap_info oracle).1 = attempt_error (oracle 4)) := by
  constructor
  · simpa using get_ap_info_loop_sends_le oracle 5 0 ERR_OK
  · intro hnone
    simpa using get_ap_info_loop_exhausted oracle 4 0 ERR_OK hnone

/-- C2 witness: the amended theorem applied to an oracle whose sends all
fail with `HAL_ERROR`: five attempts, and the last attempt's transport
error is returned. -/
theorem get_ap_info_retry_bound_witness :
    (espif_scan_get_ap_info (fun _ => ApAttempt.mk HAL_ERROR none)).2.2 = 5
    ∧ (espif_scan_get_ap_info (fun _ => ApAttempt.mk HAL_ERROR none)).1 = HAL_ERROR := by
  have h := (get_ap_info_retry_bound (fun _ => ApAttempt.mk HAL_ERROR none)).2 (by decide)
  exact ⟨h.1, h.2.trans (by decide)⟩

/-! ## C3: completion-signal claims pair 1:1 -/

/-- One `espif_tx_buffer` call from a free slot always succeeds (no
assertion fires) and performs exactly one claim and exactly one release,
leaving the slot free. -/
theorem espif_tx_buffer_from_free (h : Bool) (s : TxCompletionState)
    (hs : s.tx_semaphore_active = false) :
    espif_tx_buffer h s =
      some { tx_semaphore_active := false, claims := s.claims + 1, releases := s.releases + 1 } := by
  cases h <;> simp [espif_tx_buffer, tx_claim, espif_tx_callback, tx_withdraw, hs]

/-- Any run from a free slot completes with claims and releases advanced
by exactly the number of calls and the slot free again. -/
theorem run_tx_calls_from_free :
    ∀ (l : List Bool) (s : TxCompletionState), s.tx_semaphore_active = false →
      run_tx_calls l s =
        some { tx_semaphore_active := false, claims := s.claims + l.length,
               releases := s.releases + l.length } := by
  intro l
  induction l with
  | nil =>
      intro s hs
      cases s
      simp_all [run_tx_calls]
  | cons h t ih =>
      intro s hs
      have hstep := espif_tx_buffer_from_free h s hs
      have hrest := ih { tx_semaphore_active := false, claims := s.claims + 1,
                         releases := s.releases + 1 } rfl
      simp only [run_tx_calls, List.foldlM] at hrest ⊢
      rw [hstep]
      simp only [Option.bind_eq_bind, Option.some_bind] at hrest ⊢
      rw [hrest]
      simp only [List.length_cons]
      congr 2 <;> omega

/-- C3: claims and releases of the DMA completion-signal slot pair
exactly 1:1.  For every sequence of `espif_tx_buffer` calls (each under
the write mutex, with an arbitrary HAL transmit outcome, the ISR firing
exactly once per successful DMA issue), no assertion fires — in
particular every claim finds the slot free, so no transmission is issued
while a prior claim is outstanding — and each claim is released exactly
once, by the ISR on success or by the issuing call on failure.
Furthermore the release handoff is exchange-based: after one release, a
second `espif_tx_callback` invocation finds the slot empty and releases
nothing. -/
theorem espif_tx_claims_paired (hal_results : List Bool) :
    run_tx_calls hal_results { tx_semaphore_active := false, claims := 0, releases := 0 }
      = some { tx_semaphore_active := false, claims := hal_results.length,
               releases := hal_results.length }
    ∧ ∀ s : TxCompletionState, (espif_tx_callback (espif_tx_callback s).1).2 = false := by
  constructor
  · simpa using run_tx_calls_from_free hal_results
      { tx_semaphore_active := false, claims := 0, releases := 0 } rfl
  · intro s
    by_cases ha : s.tx_semaphore_active <;> simp [espif_tx_callback, ha]

/-! ## C4: espif_reset -/

/-- C4 counterexample: `espif_reset` called in `ESPIF_UNINITIALIZED_MODE`
leaves the mode unchanged instead of forcing `WAIT_INIT` (the
`can_recieve_data` guard makes it return immediately), and even from
`WAIT_INIT` it leaves the transient `seen_intron` and `seen_rx_packet`
flags set rather than clearing them. -/
theorem espif_reset_claim_false :
    (espif_reset c4_uninit_state).1.esp_operating_mode = ESPIF_UNINITIALIZED_MODE
    ∧ ESPIF_UNINITIALIZED_MODE ≠ ESPIF_WAIT_INIT
    ∧ (espif_reset c4_seen_state).1.seen_intron = true
    ∧ (espif_reset c4_seen_state).1.seen_rx_packet = true := by
  decide

/-- C4 amended: `espif_reset` acts only in the modes where
`can_recieve_data` holds (WaitInit, NeedAp, ConnectingAp, Running,
Scanning, FlashErrorNotConnected); there it forces `WAIT_INIT`, resets the
intron tail, brings the link down (emitting `set_link_down` when it was
associated), clears `esp_detected` and the receive-parser state, while
leaving `seen_intron` and `seen_rx_packet` untouched; in the other modes
(Uninitialized, WrongFirmware, FlashErrorOther) it does nothing. -/
theorem espif_reset_spec (st : EspState) :
    (can_recieve_data st.esp_operating_mode = false → espif_reset st = (st, []))
    ∧ (can_recieve_data st.esp_operating_mode = true →
        (espif_reset st).1 =
          { st with tx_intron := reset_intron_list st.tx_intron
                    associated := false
                    esp_detected := false
                    esp_operating_mode := ESPIF_WAIT_INIT
                    rx_phase := RxPhase.intron_search 0 }
        ∧ (espif_reset st).2 = (if st.associated then [EspEvent.set_link_down] else [])) := by
  constructor
  · intro h
    simp [espif_reset, h]
  · intro h
    cases ha : st.associated <;>
      simp [espif_reset, h, force_down, hard_reset_device, process_link_change, ha]

/-- C4 witness: the amended theorem applied at the base state (mode
`WAIT_INIT`, where `can_recieve_data` holds). -/
theorem espif_reset_spec_witness :
    (espif_reset base_state).1 =
      { base_state with tx_intron := reset_intron_list base_state.tx_intron
                        associated := false
                        esp_detected := false
                        esp_operating_mode := ESPIF_WAIT_INIT
                        rx_phase := RxPhase.intron_search 0 } :=
  ((espif_reset_spec base_state).2 (by rfl)).1

/-! ## C5: client config and the intron commit -/

/-- C5: `espif_tx_msg_clientconfig_v2` refuses without touching the
active intron while a scan session runs; otherwise it builds a new intron
keeping the first two bytes of the current one and randomizing the other
four, transmits it together with ssid and password as the
`CLIENTCONFIG_V2` payload, and commits it as the active sync pattern
exactly when the transmit succeeded; on every failure path the active
intron is unchanged. -/
theorem clientconfig_intron_commit (ssid pass random_tail : List Nat) (alloc_ok : Bool)
    (tx : err_t) (st : EspState) :
    ∀ (e : err_t) (st2 : EspState) (sent : List SentMsg),
      espif_tx_msg_clientconfig_v2 ssid pass random_tail alloc_ok tx st = (e, st2, sent) →
      (st.scan_is_running = true → e = ERR_IF ∧ st2 = st ∧ sent = [])
      ∧ (e ≠ ERR_OK → st2.tx_intron = st.tx_intron)
      ∧ (e = ERR_OK →
          st2.tx_intron = st.tx_intron.take 2 ++ (random_tail.take 4).map (fun b => b % 256)
          ∧ sent = [SentMsg.mk MessageType.CLIENTCONFIG_V2 0
              (st2.tx_intron ++ [ssid.length % 256] ++ ssid.take (ssid.length % 256)
                ++ [pass.length % 256] ++ pass.take (pass.length % 256))]) := by
  intro e st2 sent h
  cases hrun : st.scan_is_running with
  | true =>
      simp [espif_tx_msg_clientconfig_v2, hrun] at h
      obtain ⟨he, hst, hsent⟩ := h
      subst he; subst hst; subst hsent
      simp
  | false =>
      cases halloc : alloc_ok with
      | false =>
          simp [espif_tx_msg_clientconfig_v2, hrun, halloc] at h
          obtain ⟨he, hst, hsent⟩ := h
          subst he; subst hst; subst hsent
          simp [hrun]
      | true =>
          by_cases htx : tx = ERR_OK
          · simp [espif_tx_msg_clientconfig_v2, hrun, halloc, htx] at h
            obtain ⟨he, hst, hsent⟩ := h
            subst he; subst hst; subst hsent
            simp [hrun, List.append_assoc]
          · simp [espif_tx_msg_clientconfig_v2, hrun, halloc, htx] at h
            obtain ⟨he, hst, hsent⟩ := h
            subst he; subst hst; subst hsent
            simp [hrun, htx]

/-- C5 witness: a successful client config at concrete inputs commits the
new intron — first two bytes of the old one, then the four random bytes
truncated to bytes. -/
theorem clientconfig_intron_commit_witness :
    (espif_tx_msg_clientconfig_v2 [65] [66, 67] [9, 8, 7, 300] true ERR_OK
        base_state).2.1.tx_intron
      = base_state.tx_intron.take 2 ++ ([9, 8, 7, 300].take 4).map (fun b => b % 256) :=
  ((clientconfig_intron_commit [65] [66, 67] [9, 8, 7, 300] true ERR_OK base_state
      (espif_tx_msg_clientconfig_v2 [65] [66, 67] [9, 8, 7, 300] true ERR_OK base_state).1
      (espif_tx_msg_clientconfig_v2 [65] [66, 67] [9, 8, 7, 300] true ERR_OK base_state).2.1
      (espif_tx_msg_clientconfig_v2 [65] [66, 67] [9, 8, 7, 300] true ERR_OK base_state).2.2
      rfl).2.2 (by decide)).1

/-! ## C6: scan start -/

/-- C6: `espif::scan::start` sets the scan-running flag and sends
`SCAN_START`; on transmit failure it rolls the flag back to false leaving
the operating mode and `ap_count` unchanged; on success it remembers the
prior operating mode in `prescan_op_mode`, moves the mode to `SCANNING`
and resets `ap_count` to 0. -/
theorem espif_scan_start_spec (tx : err_t) (st : EspState) :
    (espif_scan_start tx st).2.2 = [SentMsg.mk MessageType.SCAN_START 0 []]
    ∧ (tx ≠ ERR_OK → espif_scan_start tx st =
        (tx, { st with scan_is_running := false },
          [SentMsg.mk MessageType.SCAN_START 0 []]))
    ∧ (tx = ERR_OK → espif_scan_start tx st =
        (ERR_OK,
          { st with scan_is_running := true
                    scan_prescan_op_mode := st.esp_operating_mode
                    esp_operating_mode := ESPIF_SCANNING_MODE
                    scan_ap_count := 0 },
          [SentMsg.mk MessageType.SCAN_START 0 []])) := by
  by_cases htx : tx = ERR_OK <;> simp [espif_scan_start, htx]

/-- C6 witness: the theorem applied at a failing transmit (`HAL_ERROR`)
and at a successful one, at the base state. -/
theorem espif_scan_start_spec_witness :
    espif_scan_start HAL_ERROR base_state =
      (HAL_ERROR, { base_state with scan_is_running := false },
        [SentMsg.mk MessageType.SCAN_START 0 []])
    ∧ espif_scan_start ERR_OK base_state =
      (ERR_OK,
        { base_state with scan_is_running := true
                          scan_prescan_op_mode := base_state.esp_operating_mode
                          esp_operating_mode := ESPIF_SCANNING_MODE
                          scan_ap_count := 0 },
        [SentMsg.mk MessageType.SCAN_START 0 []]) :=
  ⟨(espif_scan_start_spec HAL_ERROR base_state).2.1 (by decide),
   (espif_scan_start_spec ERR_OK base_state).2.2 (by decide)⟩

/-! ## C7: scan stop -/

/-- C7: `espif::scan::stop` returns `ERR_IF` with no side effects when no
scan is running; otherwise it sends `SCAN_STOP` and, only on transmit
success, clears the scan-running flag and restores the saved pre-scan
mode, performing the restore only if the current mode is still
`SCANNING`; on transmit failure the state is unchanged. -/
theorem espif_scan_stop_spec (tx : err_t) (st : EspState) :
    (st.scan_is_running = false → espif_scan_stop tx st = (ERR_IF, st, []))
    ∧ (st.scan_is_running = true →
        (espif_scan_stop tx st).2.2 = [SentMsg.mk MessageType.SCAN_STOP 0 []]
        ∧ (tx = ERR_OK →
            (espif_scan_stop tx st).2.1.scan_is_running = false
            ∧ (st.esp_operating_mode = ESPIF_SCANNING_MODE →
                (espif_scan_stop tx st).2.1.esp_operating_mode = st.scan_prescan_op_mode)
            ∧ (st.esp_operating_mode ≠ ESPIF_SCANNING_MODE →
                (espif_scan_stop tx st).2.1.esp_operating_mode = st.esp_operating_mode))
        ∧ (tx ≠ ERR_OK →
            espif_scan_stop tx st = (tx, st, [SentMsg.mk MessageType.SCAN_STOP 0 []]))) := by
  cases hrun : st.scan_is_running with
  | false => simp [espif_scan_stop, hrun]
  | true =>
      by_cases htx : tx = ERR_OK <;>
        by_cases hm : st.esp_operating_mode = ESPIF_SCANNING_MODE <;>
          simp [espif_scan_stop, hrun, htx, hm]

/-- C7 witness: stopping a running scan with a successful transmit, with
the mode still `SCANNING` and `NEED_AP` saved, restores `NEED_AP`. -/
theorem espif_scan_stop_spec_witness :
    (espif_scan_stop ERR_OK c7_midscan_state).2.1.esp_operating_mode = ESPIF_NEED_AP :=
  ((((espif_scan_stop_spec ERR_OK c7_midscan_state).2 (by rfl)).2.1 (by rfl)).2.1 (by rfl))

/-! ## C10: scan start performs no state validation -/

/-- C10: `espif::scan::start` validates nothing: in every state — any
operating mode, even with a scan already running — it transmits
`SCAN_START` and returns exactly the transmit result, never an
invalid-state error; on a successful transmit the scan is marked running.
A second successful start during an active scan (mode already `SCANNING`)
overwrites the saved pre-scan mode with `SCANNING`, so a subsequent
successful stop restores `SCANNING` instead of the original pre-scan
mode. -/
theorem espif_scan_start_no_validation (tx : err_t) (st : EspState) :
    (espif_scan_start tx st).1 = tx
    ∧ (espif_scan_start tx st).2.2 = [SentMsg.mk MessageType.SCAN_START 0 []]
    ∧ (tx = ERR_OK → (espif_scan_start tx st).2.1.scan_is_running = true)
    ∧ (st.esp_operating_mode = ESPIF_SCANNING_MODE →
        (espif_scan_start ERR_OK st).2.1.scan_prescan_op_mode = ESPIF_SCANNING_MODE
        ∧ (espif_scan_stop ERR_OK ((espif_scan_start ERR_OK st).2.1)).2.1.esp_operating_mode
            = ESPIF_SCANNING_MODE) := by
  refine ⟨?_, ?_, ?_, ?_⟩
  · by_cases htx : tx = ERR_OK <;> simp [espif_scan_start, htx]
  · by_cases htx : tx = ERR_OK <;> simp [espif_scan_start, htx]
  · intro htx; simp [espif_scan_start, htx]
  · intro hm
    constructor
    · simp [espif_scan_start, hm]
    · simp [espif_scan_start, espif_scan_stop, hm]

/-- C10 witness: a second start while a scan is active (mode `SCANNING`,
originally entered from `NEED_AP`) saves `SCANNING` as the pre-scan mode,
and the following stop leaves the mode at `SCANNING`. -/
theorem espif_scan_start_no_validation_witness :
    (espif_scan_start ERR_OK c10_midscan_state).2.1.scan_prescan_op_mode
      = ESPIF_SCANNING_MODE
    ∧ (espif_scan_stop ERR_OK
        ((espif_scan_start ERR_OK c10_midscan_state).2.1)).2.1.esp_operating_mode
      = ESPIF_SCANNING_MODE :=
  (espif_scan_start_no_validation ERR_OK c10_midscan_state).2.2.2 (by rfl)
